import Mathlib

/-!
# Voice price kiosk (`src/app.js`): shallow embedding and checked properties

The script is one `DOMContentLoaded` closure holding three mutable variables
(`isRecording`, the status text, `marathiVoice`), five speech-recognition
callbacks, and the helper functions `processCommand`, `getPrices`, `speak`
and `loadVoices`.

Modelling decisions.

* JavaScript strings are Lean `String`s; `a.includes(b)` is contiguous
  sub-sequence containment of the character lists.
* The two browser engines are external.  Every request the script sends to
  them (and every console line) is recorded as a `Cmd`, in program order.
  What the script reads from them is an input of the handler that reads it:
  `synthesis.speaking`, the localized date, the outcome of
  `recognition.start()`, the voice list.
* `String.prototype.toLowerCase` is a library function; `onresult` takes it
  as a parameter.
* The keywords and all other literals of the script lie in the Basic
  Multilingual Plane, so containment over code points and over UTF-16 code
  units agree on well-formed strings.
* The prices of the stub table are non-negative integer literals; they are
  `Nat`s and the template literal prints them in decimal.
* The capability check of lines 12-17 returns before any handler is
  installed; the model describes the script once both engines are present.
  The `onend` callback that `speak` attaches to each utterance is the event
  `utteranceEnd`.
* The utterance settings `pitch`, `rate`, `volume` are rational numbers; the
  literal `0.9` is the rational `0.9`.
-/

namespace OnionPrices

/-! ## Data model -/

/-- One entry of `mockData`: `{ place, min, max }`. -/
structure PriceRecord where
  place : String
  min : Nat
  max : Nat
deriving DecidableEq, Repr

/-- A speech-synthesis voice, as far as the script looks at it. -/
structure Voice where
  name : String
  lang : String
deriving DecidableEq, Repr

/-- The `SpeechSynthesisUtterance` built by `speak`. `voice = none` is the
engine's default voice (the property is left untouched by the script). -/
structure Utterance where
  text : String
  voice : Option Voice
  lang : String
  pitch : ℚ
  rate : ℚ
  volume : ℚ
deriving DecidableEq

/-- Requests sent to the outside world, in the order the script issues them. -/
inductive Cmd where
  | recognitionStart
  | recognitionStop
  | synthesisCancel
  | synthesisSpeak (u : Utterance)
  | consoleError (label detail : String)
  | consoleLog (label detail : String)
deriving DecidableEq

/-- The closure variables of the script together with the two DOM nodes it
writes: `status.textContent` and `micButton.classList`. -/
structure State where
  isRecording : Bool
  status : String
  classList : List String
  marathiVoice : Option Voice
deriving DecidableEq

/-- `classList.add(...)`: each token is appended unless already present. -/
def classListAdd (cl : List String) (tokens : List String) : List String :=
  tokens.foldl (fun acc t => if t ∈ acc then acc else acc ++ [t]) cl

/-- `classList.remove(...)`: every listed token is dropped. -/
def classListRemove (cl : List String) (tokens : List String) : List String :=
  cl.filter (fun t => decide (t ∉ tokens))

/-- `haystack.includes(needle)`. -/
def includes (haystack needle : String) : Bool :=
  decide (needle.data <:+: haystack.data)

/-! ## `processCommand` (lines 71-79) -/

/-- The single call made by the body of `processCommand`. -/
inductive Call where
  | getPrices (commodity : String)
  | speak (text : String)
deriving DecidableEq, Repr

/-- The text spoken when no keyword is found (line 77). -/
def unrecognizedPrompt : String :=
  "क्षमस्व, मला समजले नाही. कृपया 'कांदा भाव' किंवा 'वाटाणा भाव' विचारा."

/-- Body of `processCommand`: which function it calls, with which argument. -/
def processCommand (transcript : String) : Call :=
  if includes transcript "कांदा" || includes transcript "kanda" then
    Call.getPrices "kanda"
  else if includes transcript "वाटाणा" || includes transcript "vatana" then
    Call.getPrices "vatana"
  else
    Call.speak unrecognizedPrompt

/-! ## `getPrices` (lines 81-113) -/

/-- The object literal `mockData`, read as `mockData[commodity]`; a missing
key reads as `undefined`, here `none`. -/
def mockData (commodity : String) : Option (List PriceRecord) :=
  if commodity = "kanda" then
    some [ ⟨"संगमनेर", 2200, 2800⟩, ⟨"नाशिक", 2400, 3000⟩, ⟨"सिन्नर", 2300, 2950⟩ ]
  else if commodity = "vatana" then
    some [ ⟨"संगमनेर", 4500, 5100⟩, ⟨"नाशिक", 4800, 5300⟩, ⟨"पुणे", 4700, 5200⟩ ]
  else
    none

/-- Lead-in sentence appended at lines 102-106. -/
def leadIn (commodity : String) : String :=
  if commodity = "kanda" then
    "आजचे कांद्याचे बाजार भाव (प्रति क्विंटल) असे आहेत: "
  else
    "आजचे वाटाण्याचे बाजार भाव (प्रति क्विंटल) असे आहेत: "

/-- The template literal of line 109 for one record. -/
def clause (item : PriceRecord) : String :=
  item.place ++ ", कमीत कमी " ++ toString item.min ++ " रुपये, जास्तीत जास्त "
    ++ toString item.max ++ " रुपये. "

/-- Value of `responseText` when `getPrices` reaches `speak(responseText)`
(lines 97-110). `none`: `prices` is `undefined` and `prices.forEach` throws
before anything is spoken. -/
def getPricesText (date commodity : String) : Option String :=
  match mockData commodity with
  | none => none
  | some prices =>
    let responseText := "नमस्कार. आज " ++ date ++ " आहे. "
    let responseText := responseText ++ leadIn commodity
    some (prices.foldl (fun acc item => acc ++ clause item) responseText)

/-! ## `speak` (lines 129-150) and `loadVoices` (lines 118-127) -/

/-- The utterance configured at lines 134-143. -/
def mkUtterance (marathiVoice : Option Voice) (text : String) : Utterance :=
  { text := text, voice := marathiVoice, lang := "mr-IN", pitch := 1, rate := 0.9, volume := 1 }

/-- Function `speak(text)`: `speaking` is the value read from
`synthesis.speaking`. -/
def speak (speaking : Bool) (marathiVoice : Option Voice) (text : String) : List Cmd :=
  (if speaking then [Cmd.synthesisCancel] else [])
    ++ [Cmd.synthesisSpeak (mkUtterance marathiVoice text)]

/-- Status written by the `onend` callback that `speak` attaches to the
utterance (line 146). -/
def utteranceEndStatus : String := "पुन्हा विचारण्यासाठी बटण दाबा."

/-- Function `getPrices(commodity)`: composes the text and hands it to
`speak`. `none` is the uncaught `TypeError` of an unknown commodity. -/
def getPrices (date : String) (speaking : Bool) (marathiVoice : Option Voice)
    (commodity : String) : Option (List Cmd) :=
  (getPricesText date commodity).map (speak speaking marathiVoice)

/-- Executes the call selected by `processCommand`. -/
def runCall (date : String) (speaking : Bool) (marathiVoice : Option Voice) :
    Call → Option (List Cmd)
  | Call.getPrices commodity => getPrices date speaking marathiVoice commodity
  | Call.speak text => some (speak speaking marathiVoice text)

/-- Function `loadVoices()`: `voices` is what `synthesis.getVoices()` returned. -/
def loadVoices (voices : List Voice) (s : State) : State × List Cmd :=
  let marathiVoice := voices.find? (fun voice => voice.lang = "mr-IN")
  ({ s with marathiVoice := marathiVoice },
    match marathiVoice with
    | some v => [Cmd.consoleLog "Marathi voice found:" v.name]
    | none => [Cmd.consoleLog "Marathi (mr-IN) voice not found." ""])

/-! ## Event handlers -/

/-- Status written when `recognition.start()` throws (line 32). -/
def startErrorStatus : String := "सुरुवात करताना त्रुटी आली."

/-- Click handler of `micButton` (lines 24-35). `startError` is the outcome
of `recognition.start()` should it be called: `none` when it returns,
`some e` when it throws `e`. -/
def click (startError : Option String) (s : State) : State × List Cmd :=
  if s.isRecording then
    (s, [Cmd.recognitionStop])
  else
    match startError with
    | none => (s, [Cmd.recognitionStart])
    | some e =>
      ({ s with status := startErrorStatus },
        [Cmd.recognitionStart, Cmd.consoleError "Error starting recognition:" e])

/-- Handler `recognition.onstart` (lines 37-42). -/
def onstart (s : State) : State :=
  { s with
    isRecording := true
    status := "ऐकत आहे... बोला..."
    classList :=
      classListRemove (classListAdd s.classList ["is-recording", "bg-red-600"]) ["bg-blue-600"] }

/-- Handler `recognition.onend` (lines 44-50). -/
def onend (s : State) : State :=
  { s with
    isRecording := false
    classList :=
      classListAdd (classListRemove s.classList ["is-recording", "bg-red-600"]) ["bg-blue-600"] }

/-- Status text chosen by `recognition.onerror` (lines 54-62). -/
def errorStatus (error : String) : String :=
  if error = "not-allowed" then
    "मायक्रोफोनची परवानगी नाकारली."
  else if error = "language-not-supported" then
    "मराठी भाषा सपोर्टेड नाही."
  else if error = "no-speech" then
    "मला काही ऐकू आले नाही."
  else
    "एक त्रुटी आली: " ++ error

/-- Handler `recognition.onerror` (lines 52-63). -/
def onerror (error : String) (s : State) : State × List Cmd :=
  ({ s with status := errorStatus error },
    [Cmd.consoleError "Speech recognition error:" error])

/-- Handler `recognition.onresult` (lines 65-69). `raw` is
`event.results[0][0].transcript`. The status is written before
`processCommand` runs, so it stands even when `processCommand` throws
(`none` in the second component). -/
def onresult (toLowerCase : String → String) (raw date : String) (speaking : Bool)
    (s : State) : State × Option (List Cmd) :=
  let transcript := toLowerCase raw
  ({ s with status := "तुम्ही म्हणालात: \"" ++ transcript ++ "\"" },
    runCall date speaking s.marathiVoice (processCommand transcript))

/-! ## The controller as a transition system -/

/-- What can happen to the controller; each event carries the values its
handler reads from the environment. -/
inductive Event where
  | click (startError : Option String)
  | onstart
  | onend
  | onresult (raw date : String) (speaking : Bool)
  | onerror (error : String)
  | utteranceEnd
  | voicesChanged (voices : List Voice)

/-- One handler run: new state and the requests issued. A handler that
throws has issued nothing after the point of the throw. -/
def step (toLowerCase : String → String) (s : State) : Event → State × List Cmd
  | Event.click startError => click startError s
  | Event.onstart => (onstart s, [])
  | Event.onend => (onend s, [])
  | Event.onresult raw date speaking =>
    let r := onresult toLowerCase raw date speaking s
    (r.1, r.2.getD [])
  | Event.onerror error => onerror error s
  | Event.utteranceEnd => ({ s with status := utteranceEndStatus }, [])
  | Event.voicesChanged voices => loadVoices voices s

/-- State after a sequence of events. -/
def run (toLowerCase : String → String) (s : State) (events : List Event) : State :=
  events.foldl (fun st e => (step toLowerCase st e).1) s

/-- Texts of the speak requests among a list of commands, in order. -/
def spokenTexts : List Cmd → List String
  | [] => []
  | Cmd.synthesisSpeak u :: cs => u.text :: spokenTexts cs
  | _ :: cs => spokenTexts cs

/-! ## Auxiliary facts -/

theorem includes_iff (t k : String) :
    includes t k = true ↔ ∃ a b : String, t = a ++ k ++ b := by
  unfold includes
  rw [decide_eq_true_iff]
  constructor
  · rintro ⟨a, b, h⟩
    exact ⟨⟨a⟩, ⟨b⟩, String.ext (by simpa using h.symm)⟩
  · rintro ⟨a, b, h⟩
    exact ⟨a.data, b.data, by simp [h]⟩

theorem includes_append_left (a b k : String) (h : includes a k = true) :
    includes (a ++ b) k = true := by
  obtain ⟨x, y, rfl⟩ := (includes_iff a k).1 h
  exact (includes_iff _ _).2 ⟨x, y ++ b, by simp [String.append_assoc]⟩

theorem includes_append_right (a b k : String) (h : includes b k = true) :
    includes (a ++ b) k = true := by
  obtain ⟨x, y, rfl⟩ := (includes_iff b k).1 h
  exact (includes_iff _ _).2 ⟨a ++ x, y, by simp [String.append_assoc]⟩

theorem includes_self (k : String) : includes k k = true :=
  (includes_iff k k).2 ⟨"", "", by simp⟩

theorem foldl_clause (prices : List PriceRecord) (init : String) :
    prices.foldl (fun acc item => acc ++ clause item) init
      = init ++ String.join (prices.map clause) := by
  induction prices generalizing init with
  | nil => simp [String.join]
  | cons r rs ih =>
    rw [List.foldl_cons, ih]
    apply String.ext
    simp [String.data_join]

theorem includes_join_of_mem (ss : List String) (k : String) (h : k ∈ ss) :
    includes (String.join ss) k = true := by
  obtain ⟨l₁, l₂, rfl⟩ := List.append_of_mem h
  refine (includes_iff _ _).2 ⟨String.join l₁, String.join l₂, String.ext ?_⟩
  simp [String.data_join]

/-! ## Intent selection -/

theorem runCall_processCommand_isSome (date : String) (speaking : Bool) (v : Option Voice)
    (t : String) : (runCall date speaking v (processCommand t)).isSome = true := by
  unfold processCommand
  split
  · rfl
  · split <;> rfl

/-- C1: a transcript containing "कांदा" or "kanda" makes `processCommand` call
`getPrices('kanda')`; one containing neither of them but "वाटाणा" or "vatana"
makes it call `getPrices('vatana')`; with keywords of both intents present the
onion branch is taken, wherever the keywords stand. -/
theorem processCommand_keyword_priority (t : String) :
    ((includes t "कांदा" = true ∨ includes t "kanda" = true) →
        processCommand t = Call.getPrices "kanda") ∧
    (includes t "कांदा" = false → includes t "kanda" = false →
      (includes t "वाटाणा" = true ∨ includes t "vatana" = true) →
        processCommand t = Call.getPrices "vatana") ∧
    ((includes t "कांदा" = true ∨ includes t "kanda" = true) →
      (includes t "वाटाणा" = true ∨ includes t "vatana" = true) →
        processCommand t = Call.getPrices "kanda") := by
  refine ⟨?_, ?_, ?_⟩
  · intro h
    unfold processCommand
    rcases h with h | h <;> simp [h]
  · intro h1 h2 h
    unfold processCommand
    rcases h with h | h <;> simp [h1, h2, h]
  · intro h _
    unfold processCommand
    rcases h with h | h <;> simp [h]

theorem processCommand_keyword_priority_witness :
    processCommand "आज कांदा भाव काय आहे" = Call.getPrices "kanda" ∧
    processCommand "vatana bhav" = Call.getPrices "vatana" ∧
    processCommand "वाटाणा आणि कांदा" = Call.getPrices "kanda" :=
  ⟨(processCommand_keyword_priority "आज कांदा भाव काय आहे").1 (Or.inl (by decide)),
   (processCommand_keyword_priority "vatana bhav").2.1 (by decide) (by decide)
     (Or.inr (by decide)),
   (processCommand_keyword_priority "वाटाणा आणि कांदा").2.2 (Or.inl (by decide))
     (Or.inl (by decide))⟩

/-- C2: a transcript containing none of the four keywords makes
`processCommand` call `speak` with the fixed prompt and never `getPrices`;
the speak requests issued carry exactly that prompt, which is the literal of
line 77 and names both "कांदा" and "वाटाणा". -/
theorem processCommand_unrecognized (t date : String) (speaking : Bool) (v : Option Voice)
    (h1 : includes t "कांदा" = false) (h2 : includes t "kanda" = false)
    (h3 : includes t "वाटाणा" = false) (h4 : includes t "vatana" = false) :
    processCommand t = Call.speak unrecognizedPrompt ∧
    (∀ c, processCommand t ≠ Call.getPrices c) ∧
    runCall date speaking v (processCommand t) = some (speak speaking v unrecognizedPrompt) ∧
    (∀ cmds, runCall date speaking v (processCommand t) = some cmds →
      spokenTexts cmds = [unrecognizedPrompt]) ∧
    unrecognizedPrompt
      = "क्षमस्व, मला समजले नाही. कृपया 'कांदा भाव' किंवा 'वाटाणा भाव' विचारा." ∧
    includes unrecognizedPrompt "कांदा" = true ∧
    includes unrecognizedPrompt "वाटाणा" = true := by
  have hp : processCommand t = Call.speak unrecognizedPrompt := by
    unfold processCommand
    simp [h1, h2, h3, h4]
  refine ⟨hp, ?_, ?_, ?_, rfl, by decide, by decide⟩
  · intro c hc
    rw [hp] at hc
    cases hc
  · rw [hp]; rfl
  · intro cmds hc
    rw [hp] at hc
    simp only [runCall, Option.some.injEq] at hc
    subst hc
    cases speaking <;> rfl

theorem processCommand_unrecognized_witness :
    processCommand "हॅलो" = Call.speak unrecognizedPrompt ∧
    processCommand "" = Call.speak unrecognizedPrompt :=
  ⟨(processCommand_unrecognized "हॅलो" "४ नोव्हेंबर, २०२६" false none
      (by decide) (by decide) (by decide) (by decide)).1,
   (processCommand_unrecognized "" "४ नोव्हेंबर, २०२६" true none
      (by decide) (by decide) (by decide) (by decide)).1⟩

/-! ## Response composition -/

theorem getPricesText_of_mockData (d c : String) (prices : List PriceRecord)
    (h : mockData c = some prices) :
    getPricesText d c
      = some ("नमस्कार. आज " ++ d ++ " आहे. " ++ leadIn c ++ String.join (prices.map clause)) := by
  unfold getPricesText
  rw [h]
  simp only [foldl_clause]

/-- C3: for commodity 'kanda' or 'vatana' and every date string `d`, the text
`getPrices` hands to `speak` is greeting, `d`, the lead-in, and then the
clauses "<place>, कमीत कमी <min> रुपये, जास्तीत जास्त <max> रुपये. " of the
commodity's records, one per record, in record order, with nothing after the
last one; hence it contains `d` and every record's clause. -/
theorem getPrices_text_structure (d c : String) (hc : c = "kanda" ∨ c = "vatana") :
    ∃ prices text,
      mockData c = some prices ∧
      getPricesText d c = some text ∧
      (∀ speaking v, getPrices d speaking v c = some (speak speaking v text)) ∧
      text = "नमस्कार. आज " ++ d ++ " आहे. " ++ leadIn c ++ String.join (prices.map clause) ∧
      includes text d = true ∧
      (∀ r ∈ prices,
        clause r = r.place ++ ", कमीत कमी " ++ toString r.min ++ " रुपये, जास्तीत जास्त "
          ++ toString r.max ++ " रुपये. " ∧
        includes text (clause r) = true ∧
        includes (clause r) r.place = true ∧
        includes (clause r) (toString r.min) = true ∧
        includes (clause r) (toString r.max) = true) := by
  have hm : ∃ prices, mockData c = some prices := by
    rcases hc with rfl | rfl
    · exact ⟨_, rfl⟩
    · exact ⟨_, rfl⟩
  obtain ⟨prices, hp⟩ := hm
  have ht := getPricesText_of_mockData d c prices hp
  refine ⟨prices, _, hp, ht, ?_, rfl, ?_, ?_⟩
  · intro speaking v
    simp only [getPrices, ht, Option.map_some']
  · apply includes_append_left
    apply includes_append_left
    apply includes_append_left
    apply includes_append_right
    exact includes_self d
  · intro r hr
    refine ⟨rfl, ?_, ?_, ?_, ?_⟩
    · apply includes_append_right
      exact includes_join_of_mem _ _ (List.mem_map_of_mem clause hr)
    · unfold clause
      iterate 5 apply includes_append_left
      exact includes_self _
    · unfold clause
      iterate 3 apply includes_append_left
      apply includes_append_right
      exact includes_self _
    · unfold clause
      apply includes_append_left
      apply includes_append_right
      exact includes_self _

theorem getPrices_text_structure_witness :
    ∃ prices text,
      mockData "vatana" = some prices ∧
      getPricesText "४ नोव्हेंबर, २०२६" "vatana" = some text ∧
      (∀ speaking v,
        getPrices "४ नोव्हेंबर, २०२६" speaking v "vatana" = some (speak speaking v text)) ∧
      text = "नमस्कार. आज " ++ "४ नोव्हेंबर, २०२६" ++ " आहे. " ++ leadIn "vatana"
        ++ String.join (prices.map clause) ∧
      includes text "४ नोव्हेंबर, २०२६" = true ∧
      (∀ r ∈ prices,
        clause r = r.place ++ ", कमीत कमी " ++ toString r.min ++ " रुपये, जास्तीत जास्त "
          ++ toString r.max ++ " रुपये. " ∧
        includes text (clause r) = true ∧
        includes (clause r) r.place = true ∧
        includes (clause r) (toString r.min) = true ∧
        includes (clause r) (toString r.max) = true) :=
  getPrices_text_structure "४ नोव्हेंबर, २०२६" "vatana" (Or.inr rfl)

/-- The onion response for date `d`, written out. -/
theorem getPricesText_kanda (d : String) :
    getPricesText d "kanda" = some ("नमस्कार. आज " ++ d ++ (" आहे. "
      ++ "आजचे कांद्याचे बाजार भाव (प्रति क्विंटल) असे आहेत: "
      ++ "संगमनेर, कमीत कमी 2200 रुपये, जास्तीत जास्त 2800 रुपये. "
      ++ "नाशिक, कमीत कमी 2400 रुपये, जास्तीत जास्त 3000 रुपये. "
      ++ "सिन्नर, कमीत कमी 2300 रुपये, जास्तीत जास्त 2950 रुपये. ")) := by
  rw [getPricesText_of_mockData d "kanda" _ rfl]
  congr 1
  rw [String.append_assoc, String.append_assoc]
  congr 1

/-- C4: for the transcript "आज कांदा भाव काय आहे" `processCommand` calls
`getPrices('kanda')`, the table holds exactly three records for 'kanda', and
the one text handed to `speak` lists संगमनेर 2200/2800, नाशिक 2400/3000,
सिन्नर 2300/2950 in the table's order, whatever the date. -/
theorem scenario_onion_end_to_end (d : String) (speaking : Bool) (v : Option Voice) :
    processCommand "आज कांदा भाव काय आहे" = Call.getPrices "kanda" ∧
    mockData "kanda"
      = some [⟨"संगमनेर", 2200, 2800⟩, ⟨"नाशिक", 2400, 3000⟩, ⟨"सिन्नर", 2300, 2950⟩] ∧
    (mockData "kanda").map List.length = some 3 ∧
    (∃ cmds,
      runCall d speaking v (processCommand "आज कांदा भाव काय आहे") = some cmds ∧
      spokenTexts cmds = ["नमस्कार. आज " ++ d ++ (" आहे. "
        ++ "आजचे कांद्याचे बाजार भाव (प्रति क्विंटल) असे आहेत: "
        ++ "संगमनेर, कमीत कमी 2200 रुपये, जास्तीत जास्त 2800 रुपये. "
        ++ "नाशिक, कमीत कमी 2400 रुपये, जास्तीत जास्त 3000 रुपये. "
        ++ "सिन्नर, कमीत कमी 2300 रुपये, जास्तीत जास्त 2950 रुपये. ")]) := by
  have hp : processCommand "आज कांदा भाव काय आहे" = Call.getPrices "kanda" := by decide
  refine ⟨hp, rfl, rfl, ?_⟩
  rw [hp]
  simp only [runCall, getPrices, getPricesText_kanda, Option.map_some']
  refine ⟨_, rfl, ?_⟩
  cases speaking <;> rfl

/-- C10: the transcript "वाटाणा" makes `processCommand` call
`getPrices('vatana')`; the pea lead-in and the onion lead-in are the two
literals of lines 103 and 105 and differ; for every date the composed onion
text and the composed pea text exist and are different strings. -/
theorem scenario_pea_lead_in_differs (d : String) :
    processCommand "वाटाणा" = Call.getPrices "vatana" ∧
    leadIn "vatana" = "आजचे वाटाण्याचे बाजार भाव (प्रति क्विंटल) असे आहेत: " ∧
    leadIn "kanda" = "आजचे कांद्याचे बाजार भाव (प्रति क्विंटल) असे आहेत: " ∧
    leadIn "vatana" ≠ leadIn "kanda" ∧
    (∃ onionText peaText,
      getPricesText d "kanda" = some onionText ∧
      getPricesText d "vatana" = some peaText ∧
      includes onionText (leadIn "kanda") = true ∧
      includes peaText (leadIn "vatana") = true ∧
      onionText ≠ peaText) := by
  refine ⟨by decide, rfl, rfl, by decide, _, _,
    getPricesText_of_mockData d "kanda" _ rfl, getPricesText_of_mockData d "vatana" _ rfl,
    ?_, ?_, ?_⟩
  · apply includes_append_left
    apply includes_append_right
    exact includes_self _
  · apply includes_append_left
    apply includes_append_right
    exact includes_self _
  · intro h
    have h2 := String.ext_iff.1 h
    simp only [String.data_append, List.append_assoc] at h2
    have h3 := List.append_cancel_left (List.append_cancel_left (List.append_cancel_left h2))
    revert h3
    decide

/-! ## Speech output -/

/-- C8: called while `synthesis.speaking` is true, `speak(text)` issues
`cancel()` and then one speak request carrying `text`, in that order; called
while it is false it issues that one speak request and no cancel. The
utterance has language tag 'mr-IN', pitch 1, rate 0.9 and volume 1. -/
theorem speak_cancels_before_speaking (text : String) (v : Option Voice) :
    ∃ u : Utterance,
      speak true v text = [Cmd.synthesisCancel, Cmd.synthesisSpeak u] ∧
      speak false v text = [Cmd.synthesisSpeak u] ∧
      Cmd.synthesisCancel ∉ speak false v text ∧
      spokenTexts (speak true v text) = [text] ∧
      spokenTexts (speak false v text) = [text] ∧
      u.text = text ∧ u.lang = "mr-IN" ∧ u.pitch = 1 ∧ u.rate = 0.9 ∧ u.volume = 1 :=
  ⟨mkUtterance v text, rfl, rfl, by simp [speak], rfl, rfl, rfl, rfl, rfl, rfl, rfl⟩

/-! ## Recognition errors -/

theorem otherError_ne (k fixed : String) (h : fixed.data.head? = some 'म') :
    "एक त्रुटी आली: " ++ k ≠ fixed := by
  intro e
  have h2 : ("एक त्रुटी आली: " ++ k).data.head? = some 'ए' := rfl
  rw [e, h] at h2
  revert h2
  decide

/-- C5: the status written by `onerror` depends on the error kind only:
'not-allowed', 'language-not-supported' and 'no-speech' give their three fixed
messages, every other kind `k` gives "एक त्रुटी आली: " followed by `k`; the
three fixed messages differ from one another and from the message of every
other kind. -/
theorem onerror_status_by_kind (k : String) (s : State) :
    (onerror k s).1.status = errorStatus k ∧
    (∀ s2 : State, (onerror k s2).1.status = (onerror k s).1.status) ∧
    errorStatus "not-allowed" = "मायक्रोफोनची परवानगी नाकारली." ∧
    errorStatus "language-not-supported" = "मराठी भाषा सपोर्टेड नाही." ∧
    errorStatus "no-speech" = "मला काही ऐकू आले नाही." ∧
    errorStatus "not-allowed" ≠ errorStatus "language-not-supported" ∧
    errorStatus "not-allowed" ≠ errorStatus "no-speech" ∧
    errorStatus "language-not-supported" ≠ errorStatus "no-speech" ∧
    (k ≠ "not-allowed" → k ≠ "language-not-supported" → k ≠ "no-speech" →
      errorStatus k = "एक त्रुटी आली: " ++ k ∧
      errorStatus k ≠ errorStatus "not-allowed" ∧
      errorStatus k ≠ errorStatus "language-not-supported" ∧
      errorStatus k ≠ errorStatus "no-speech") := by
  refine ⟨rfl, fun _ => rfl, by decide, by decide, by decide, by decide, by decide,
    by decide, ?_⟩
  intro h1 h2 h3
  have hk : errorStatus k = "एक त्रुटी आली: " ++ k := by
    unfold errorStatus
    simp [h1, h2, h3]
  rw [hk]
  exact ⟨rfl, otherError_ne k _ (by decide), otherError_ne k _ (by decide),
    otherError_ne k _ (by decide)⟩

theorem onerror_status_by_kind_witness :
    errorStatus "network" = "एक त्रुटी आली: " ++ "network" ∧
    errorStatus "network" ≠ errorStatus "not-allowed" ∧
    errorStatus "network" ≠ errorStatus "language-not-supported" ∧
    errorStatus "network" ≠ errorStatus "no-speech" :=
  (onerror_status_by_kind "network" ⟨true, "ऐकत आहे... बोला...", ["bg-red-600"], none⟩).2.2.2.2.2.2.2.2
    (by decide) (by decide) (by decide)

/-! ## Recording state -/

theorem click_isRecording (startError : Option String) (s : State) :
    (click startError s).1.isRecording = s.isRecording := by
  unfold click
  split
  · rfl
  · cases startError <;> rfl

theorem click_idle_head (startError : Option String) (s : State)
    (h : s.isRecording = false) :
    (click startError s).2.head? = some Cmd.recognitionStart := by
  unfold click
  rw [h]
  cases startError <;> rfl

theorem step_isRecording_of_ne (lower : String → String) (s : State) (e : Event)
    (h1 : e ≠ Event.onstart) (h2 : e ≠ Event.onend) :
    (step lower s e).1.isRecording = s.isRecording := by
  cases e with
  | click startError => exact click_isRecording startError s
  | onstart => exact absurd rfl h1
  | onend => exact absurd rfl h2
  | onresult raw date speaking => rfl
  | onerror error => rfl
  | utteranceEnd => rfl
  | voicesChanged voices => rfl

theorem step_idle_of_ne_onstart (lower : String → String) (s : State) (e : Event)
    (hs : s.isRecording = false) (h : e ≠ Event.onstart) :
    (step lower s e).1.isRecording = false := by
  by_cases h2 : e = Event.onend
  · subst h2; rfl
  · rw [step_isRecording_of_ne lower s e h h2, hs]

theorem run_idle_of_no_onstart (lower : String → String) (es : List Event) (s : State)
    (hs : s.isRecording = false) (h : ∀ e ∈ es, e ≠ Event.onstart) :
    (run lower s es).isRecording = false := by
  induction es generalizing s with
  | nil => exact hs
  | cons e es ih =>
    unfold run
    rw [List.foldl_cons]
    exact ih _ (step_idle_of_ne_onstart lower s e hs (h e (List.mem_cons_self e es)))
      (fun x hx => h x (List.mem_cons_of_mem e hx))

theorem run_append (lower : String → String) (s : State) (es fs : List Event) :
    run lower s (es ++ fs) = run lower (run lower s es) fs := by
  unfold run
  rw [List.foldl_append]

/-- C9: a click never writes `isRecording`, whatever `recognition.start()`
does. While recording it issues `stop` and nothing else; while idle it issues
`start` and no `stop`. When `start` throws, the handler changes the status to
"सुरुवात करताना त्रुटी आली." and nothing else of the state, and the next click
issues `start` again. -/
theorem click_never_writes_isRecording (s : State) (startError : Option String) :
    (click startError s).1.isRecording = s.isRecording ∧
    (s.isRecording = true →
      (click startError s).2 = [Cmd.recognitionStop] ∧ (click startError s).1 = s) ∧
    (s.isRecording = false →
      (click startError s).2.head? = some Cmd.recognitionStart ∧
      Cmd.recognitionStop ∉ (click startError s).2 ∧
      (click none s) = (s, [Cmd.recognitionStart]) ∧
      ∀ e : String,
        (click (some e) s).1 = { s with status := "सुरुवात करताना त्रुटी आली." } ∧
        (click (some e) s).2
          = [Cmd.recognitionStart, Cmd.consoleError "Error starting recognition:" e] ∧
        ∀ next : Option String,
          (click next (click (some e) s).1).2.head? = some Cmd.recognitionStart) := by
  refine ⟨click_isRecording startError s, ?_, ?_⟩
  · intro h
    unfold click
    simp [h]
  · intro h
    refine ⟨click_idle_head startError s h, ?_, ?_, ?_⟩
    · unfold click
      rw [h]
      cases startError <;> simp
    · unfold click
      simp [h]
    · intro e
      refine ⟨?_, ?_, ?_⟩
      · unfold click
        simp [h, startErrorStatus]
      · unfold click
        simp [h]
      · intro next
        apply click_idle_head
        rw [click_isRecording, h]

theorem click_never_writes_isRecording_witness :
    ((click none ⟨true, "ऐकत आहे... बोला...", ["bg-red-600"], none⟩).2 = [Cmd.recognitionStop] ∧
      (click none ⟨true, "ऐकत आहे... बोला...", ["bg-red-600"], none⟩).1
        = ⟨true, "ऐकत आहे... बोला...", ["bg-red-600"], none⟩) ∧
    (click (some "InvalidStateError") ⟨false, "", ["bg-blue-600"], none⟩).2.head?
      = some Cmd.recognitionStart :=
  ⟨(click_never_writes_isRecording ⟨true, "ऐकत आहे... बोला...", ["bg-red-600"], none⟩ none).2.1 rfl,
   ((click_never_writes_isRecording ⟨false, "", ["bg-blue-600"], none⟩
      (some "InvalidStateError")).2.2 rfl).1⟩

/-- C7: once `onend` has run, `isRecording` is false; it stays false under
every sequence of clicks, whatever `recognition.start()` does, and more
generally under every sequence of events without `onstart`; an `onstart`
event makes it true again. -/
theorem idle_after_session_end (lower : String → String) (s : State) :
    (step lower s Event.onend).1.isRecording = false ∧
    (∀ toggles : List (Option String),
      (run lower (step lower s Event.onend).1 (toggles.map Event.click)).isRecording = false) ∧
    (∀ es : List Event, (∀ e ∈ es, e ≠ Event.onstart) →
      (run lower (step lower s Event.onend).1 es).isRecording = false) ∧
    (∀ es : List Event, (run lower (step lower s Event.onend).1 es).isRecording = true →
      Event.onstart ∈ es) ∧
    (∀ es : List Event,
      (run lower (step lower s Event.onend).1 (es ++ [Event.onstart])).isRecording = true) := by
  have h0 : (step lower s Event.onend).1.isRecording = false := rfl
  refine ⟨h0, ?_, ?_, ?_, ?_⟩
  · intro toggles
    apply run_idle_of_no_onstart lower _ _ h0
    intro e he
    obtain ⟨t, _, rfl⟩ := List.mem_map.1 he
    intro hc
    cases hc
  · intro es hes
    exact run_idle_of_no_onstart lower es _ h0 hes
  · intro es hes
    by_contra hn
    have := run_idle_of_no_onstart lower es _ h0 (fun e he heq => hn (heq ▸ he))
    rw [this] at hes
    cases hes
  · intro es
    rw [run_append]
    rfl

theorem idle_after_session_end_witness :
    (run id (step id ⟨true, "ऐकत आहे... बोला...", ["is-recording", "bg-red-600"], none⟩
        Event.onend).1
      [Event.click none, Event.onerror "aborted", Event.click (some "busy"),
        Event.utteranceEnd]).isRecording = false :=
  (idle_after_session_end id ⟨true, "ऐकत आहे... बोला...", ["is-recording", "bg-red-600"], none⟩).2.2.1
    [Event.click none, Event.onerror "aborted", Event.click (some "busy"), Event.utteranceEnd]
    (by
      intro e he
      simp only [List.mem_cons, List.mem_singleton, List.not_mem_nil, or_false] at he
      rcases he with rfl | rfl | rfl | rfl <;> exact Event.noConfusion)

/-- C6, the claim as written fails: a session that has started and then
reports 'no-speech' is still recording after `onerror` has run. -/
theorem onerror_leaves_listening :
    (run id ⟨false, "", ["bg-blue-600"], none⟩
        [Event.click none, Event.onstart, Event.onerror "no-speech"]).isRecording = true ∧
    (onerror "no-speech" ⟨true, "ऐकत आहे... बोला...", ["is-recording", "bg-red-600"], none⟩).1.isRecording
      = true :=
  ⟨rfl, rfl⟩

/-- C6, amended: `onerror` writes the status only and leaves `isRecording` as
it was; the `onend` that closes the session sets it to false, and the click
after that issues `start`. A click whose `start` throws happens while
`isRecording` is false and leaves it false, and the click after it issues
`start` again. -/
theorem error_paths_reach_idle (s : State) (k : String) :
    (onerror k s).1 = { s with status := errorStatus k } ∧
    (onerror k s).1.isRecording = s.isRecording ∧
    (onend (onerror k s).1).isRecording = false ∧
    (∀ next : Option String,
      (click next (onend (onerror k s).1)).2.head? = some Cmd.recognitionStart) ∧
    (∀ e : String, s.isRecording = false →
      (click (some e) s).1.isRecording = false ∧
      ∀ next : Option String,
        (click next (click (some e) s).1).2.head? = some Cmd.recognitionStart) := by
  refine ⟨rfl, rfl, rfl, fun next => click_idle_head next _ rfl, ?_⟩
  intro e h
  have h2 : (click (some e) s).1.isRecording = false := by
    rw [click_isRecording, h]
  exact ⟨h2, fun next => click_idle_head next _ h2⟩

theorem error_paths_reach_idle_witness :
    (click (some "InvalidStateError") ⟨false, "", ["bg-blue-600"], none⟩).1.isRecording = false ∧
    ∀ next : Option String,
      (click next (click (some "InvalidStateError")
        ⟨false, "", ["bg-blue-600"], none⟩).1).2.head? = some Cmd.recognitionStart :=
  (error_paths_reach_idle ⟨false, "", ["bg-blue-600"], none⟩ "no-speech").2.2.2.2
    "InvalidStateError" rfl

end OnionPrices
